import Mathlib

/-!
Verification of the AI-Terminal backend (`src/app.py`) against its
natural-language specification.

The Python program is shallowly embedded: strings are Lean `String`s
(logically lists of characters), the process-wide `session_contexts`
dictionary is a function `String → Option SessionContext`, and every
external effect (the filesystem, `subprocess`, `shlex`, the regex engine
`re`, and the generative oracle) is a parameter of the embedding, bundled
in `PyEnv` / `Oracle`.  Python operations used by the source
(`str.lower`, `str.strip`, `str.split`, substring `in`, `str.format`,
slicing `[-n:]`, `[:n]`) are defined below as executable Lean functions
on character lists; ASCII behaviour — the only behaviour the program's
own string constants exercise — matches CPython.
-/

/-- Character-level model of Python `str.lower()` (ASCII case folding;
CPython agrees on ASCII input, which is all the source's tables use). -/
def pyLower (s : String) : String := String.mk (s.data.map Char.toLower)

/-- The whitespace characters recognised by Python `str.strip()` /
`str.split()` with no argument. -/
def isPySpace (c : Char) : Bool :=
  c = ' ' || c = '\t' || c = '\n' || c = '\r' || c = '\x0b' || c = '\x0c'

/-- `str.strip()` on a character list. -/
def pyStripList (cs : List Char) : List Char :=
  ((cs.dropWhile isPySpace).reverse.dropWhile isPySpace).reverse

/-- Python `str.strip()`. -/
def pyStrip (s : String) : String := String.mk (pyStripList s.data)

/-- Python `len` on a string (count of characters). -/
def pyLen (s : String) : Nat := s.data.length

/-- Helper for `pySplit`: accumulates the current token (reversed). -/
def pySplitAux : List Char → List Char → List String
  | acc, [] => if acc.isEmpty then [] else [String.mk acc.reverse]
  | acc, c :: cs =>
    if isPySpace c then
      if acc.isEmpty then pySplitAux [] cs
      else String.mk acc.reverse :: pySplitAux [] cs
    else pySplitAux (c :: acc) cs

/-- Python `str.split()` with no argument: split on whitespace runs,
dropping empty tokens. -/
def pySplit (s : String) : List String := pySplitAux [] s.data

/-- Helper for `splitLines`. -/
def splitLinesAux : List Char → List Char → List String
  | acc, [] => [String.mk acc.reverse]
  | acc, c :: cs =>
    if c = '\n' then String.mk acc.reverse :: splitLinesAux [] cs
    else splitLinesAux (c :: acc) cs

/-- Python `str.split('\n')` (keeps empty pieces). -/
def splitLines (s : String) : List String := splitLinesAux [] s.data

/-- Boolean list-prefix test. -/
def listIsPrefixB : List Char → List Char → Bool
  | [], _ => true
  | _ :: _, [] => false
  | a :: as, b :: bs => a == b && listIsPrefixB as bs

/-- Boolean contiguous-sublist test: does `needle` occur inside the second
list?  Models Python's substring operator `in`. -/
def containsSubList (needle : List Char) : List Char → Bool
  | [] => needle.isEmpty
  | b :: bs => listIsPrefixB needle (b :: bs) || containsSubList needle bs

/-- Python `needle in hay` on strings. -/
def pyContains (hay needle : String) : Bool := containsSubList needle.data hay.data

/-- Python `str.startswith`. -/
def pyStartsWith (s pre : String) : Bool := listIsPrefixB pre.data s.data

/-- Python `str.endswith`. -/
def pyEndsWith (s suf : String) : Bool := listIsPrefixB suf.data.reverse s.data.reverse

/-- Python `sep.join(xs)`. -/
def joinSep (sep : String) : List String → String
  | [] => ""
  | [x] => x
  | x :: xs => x ++ sep ++ joinSep sep xs

/-- Python slice `l[-n:]` on lists: the last `n` elements. -/
def takeLast (n : Nat) (l : List α) : List α := l.drop (l.length - n)

/-- Right-align into a field of `w` characters (Python format `{x:>w}`). -/
def padLeft (w : Nat) (s : String) : String :=
  String.mk (List.replicate (w - pyLen s) ' ') ++ s

/-- Replace every (leftmost, non-overlapping) occurrence of `pat` by
`repl`; models Python `str.replace` / `str.format` placeholder filling. -/
def replaceAllList (pat repl : List Char) : List Char → List Char
  | [] => []
  | c :: cs =>
    if pat ≠ [] ∧ listIsPrefixB pat (c :: cs) then
      repl ++ replaceAllList pat repl ((c :: cs).drop pat.length)
    else
      c :: replaceAllList pat repl cs
termination_by l => l.length
decreasing_by
  · rename_i h
    simp only [List.length_drop, List.length_cons]
    have hne : pat.length ≠ 0 := fun hz => h.1 (List.length_eq_zero.mp hz)
    omega
  · simp

/-- `template.format(key=value)` for a single named placeholder. -/
def pyFormat1 (template key value : String) : String :=
  String.mk (replaceAllList key.data value.data template.data)

/-! ## The Security Validator (`validate_command_security`, app.py 471-495) -/

/-- The deny-list `dangerous_patterns` of `validate_command_security`,
transcribed from the source (the fork-bomb braces are written with
character escapes). -/
def dangerous_patterns : List String :=
  ["rm -rf /", "del /f /s /q c:", "format c:", "fdisk", "mkfs",
   "shutdown", "reboot", "halt", "poweroff", "init 0", "init 6",
   "chmod 777 /", "> /dev/sda", "dd if=/dev/zero", "killall",
   "pkill -9", "kill -9 -1", "forkbomb", ":()\x7b :|:& \x7d;:",
   "sudo rm", "sudo chmod", "sudo chown"]

/-- `validate_command_security(command)` (app.py 471-495): empty check,
case-insensitive deny-list scan, length check, in that order. -/
def validate_command_security (command : String) : Bool × Option String :=
  if command = "" then (false, some "Empty command")
  else
    let command_lower := pyLower command
    match dangerous_patterns.find? (fun p => pyContains command_lower p) with
    | some p => (false, some ("Blocked dangerous command: " ++ p))
    | none =>
      if 500 < pyLen command then (false, some "Command too long")
      else (true, none)

/-- `BUILTIN_COMMANDS` (app.py 47). -/
def BUILTIN_COMMANDS (isWindows : Bool) : List String :=
  ["ls", "cd", "pwd", "mkdir", "rm", "cpu", "mem", "ps", "help", "clear"]
    ++ (if isWindows then ["dir"] else [])

/-! ## The Pattern Library (`COMMAND_PATTERNS`, app.py 50-218) -/

/-- One entry of `COMMAND_PATTERNS`: the ordered regex pattern strings,
the two platform command templates, the description, and the
`builtin_override` flag (present only on `change_directory`). -/
structure CommandInfo where
  patterns : List String
  windows_cmd : Option String
  unix_cmd : Option String
  description : String
  builtin_override : Bool
deriving DecidableEq

/-- `COMMAND_PATTERNS` in declaration order (Python dicts preserve
insertion order).  Regex strings are transcribed verbatim from the
source; they are treated as opaque keys for the abstract regex engine
`PyEnv.search` below. -/
def COMMAND_PATTERNS : List (String × CommandInfo) :=
  [("list_files",
    ⟨["(?:show|list|display|see|view)\\s+(?:all\\s+)?files?",
      "(?:what\\'?s|whats)\\s+(?:in\\s+)?(?:this\\s+)?(?:folder|directory)",
      "ls\\s*(?:-la?)?",
      "dir(?:\\s+/a)?",
      "(?:show|list)\\s+contents?",
      "(?:show|list)\\s+everything"],
     some "dir", some "ls -la", "List all files and directories", false⟩),
   ("list_hidden",
    ⟨["(?:show|list|display)\\s+hidden\\s+files?",
      "(?:show|list)\\s+(?:all\\s+)?files?\\s+including\\s+hidden",
      "ls\\s+-a",
      "dir\\s+/a"],
     some "dir /a", some "ls -la", "List all files including hidden ones", false⟩),
   ("count_files",
    ⟨["(?:count|how many)\\s+files?",
      "number\\s+of\\s+files?",
      "file\\s+count"],
     some "dir /b | find /c /v \"\"", some "ls -1 | wc -l", "Count files in directory", false⟩),
   ("find_files",
    ⟨["find\\s+(.+?)\\s+files?",
      "(?:search|look)\\s+for\\s+(.+?)\\s+files?",
      "files?\\s+with\\s+(.+?)",
      "(.+?)\\s+files?"],
     some "dir *{ext} /s", some "find . -name \"*{ext}*\"", "Find files by extension or name", false⟩),
   ("disk_usage",
    ⟨["(?:disk|storage|space)\\s+usage",
      "how\\s+much\\s+space",
      "free\\s+space",
      "disk\\s+space"],
     some "dir", some "df -h", "Show disk usage", false⟩),
   ("file_size",
    ⟨["size\\s+of\\s+(.+)",
      "how\\s+big\\s+is\\s+(.+)",
      "(.+)\\s+size"],
     some "dir \"{filename}\"", some "ls -lh \"{filename}\"", "Show file size", false⟩),
   ("create_file",
    ⟨["(?:create|make|new)\\s+(?:file|document)\\s+(.+)",
      "touch\\s+(.+)"],
     some "type nul > \"{filename}\"", some "touch \"{filename}\"", "Create a new file", false⟩),
   ("change_directory",
    ⟨["(?:go|change|switch|move|navigate)\\s+(?:to|into|inside)\\s+(.+)",
      "(?:cd|chdir)\\s+(.+)",
      "(?:enter|open)\\s+(?:folder|directory|dir)\\s+(.+)",
      "(?:go|move)\\s+(?:into|inside|to)\\s+(?:the\\s+)?(.+?)(?:\\s+(?:folder|directory|dir))?"],
     some "cd /d \"{dirname}\"", some "cd \"{dirname}\"", "Change to directory", true⟩),
   ("create_directory",
    ⟨["(?:create|make|new)\\s+(?:folder|directory|dir)\\s+(.+)",
      "mkdir\\s+(.+)"],
     some "mkdir \"{dirname}\"", some "mkdir \"{dirname}\"", "Create a new directory", false⟩),
   ("copy_file",
    ⟨["copy\\s+(.+?)\\s+to\\s+(.+)",
      "cp\\s+(.+?)\\s+(.+)"],
     some "copy \"{source}\" \"{dest}\"", some "cp \"{source}\" \"{dest}\"", "Copy file or directory", false⟩),
   ("move_file",
    ⟨["(?:move|rename)\\s+(.+?)\\s+to\\s+(.+)",
      "mv\\s+(.+?)\\s+(.+)"],
     some "move \"{source}\" \"{dest}\"", some "mv \"{source}\" \"{dest}\"", "Move or rename file", false⟩),
   ("delete_file",
    ⟨["(?:delete|remove)\\s+(?:file\\s+)?(.+)",
      "rm\\s+(.+)"],
     some "del \"{filename}\"", some "rm \"{filename}\"", "Delete file", false⟩),
   ("show_content",
    ⟨["(?:show|display|read|view|cat)\\s+(?:contents?\\s+of\\s+)?(.+)",
      "what\\'?s\\s+in\\s+(.+)",
      "cat\\s+(.+)"],
     some "type \"{filename}\"", some "cat \"{filename}\"", "Show file contents", false⟩),
   ("system_info",
    ⟨["system\\s+info(?:rmation)?",
      "computer\\s+info",
      "hardware\\s+info",
      "specs?"],
     some "systeminfo", some "uname -a && lscpu", "Show system information", false⟩),
   ("processes",
    ⟨["(?:show|list)\\s+processes?",
      "running\\s+programs?",
      "what\\'?s\\s+running",
      "ps(?:\\s+aux)?",
      "task\\s+list"],
     some "tasklist", some "ps aux", "List running processes", false⟩),
   ("network_info",
    ⟨["(?:network|ip)\\s+info",
      "ip\\s+address",
      "network\\s+config",
      "ifconfig"],
     some "ipconfig", some "ifconfig", "Show network information", false⟩)]

/-! ## External world: the embedding environment -/

/-- Outcome of one `subprocess.run` call (or of the exceptions the source
catches around it). -/
inductive RunOutcome where
  | completed (returncode : Int) (stdout : String) (stderr : String)
  | timedOut
  | fileNotFound (filename : Option String)
  | raisedOther (msg : String)
deriving DecidableEq

/-- Every effectful collaborator of `app.py`, made explicit: the platform
flag and AI flag fixed at startup, the regex engine (`re.search` as a
Boolean plus `match.groups()`), and the filesystem / subprocess calls.
Theorems quantify over this environment. -/
structure PyEnv where
  /-- `IS_WINDOWS` (app.py 24). -/
  isWindows : Bool
  /-- `AI_ENABLED` (app.py 26-40). -/
  aiEnabled : Bool
  /-- `re.search(pattern, query, re.IGNORECASE) is not None`. -/
  search : String → String → Bool
  /-- `re.search(pattern, query, re.IGNORECASE).groups()`. -/
  groups : String → String → List String
  /-- `os.path.expanduser('~')`. -/
  home : String
  /-- `os.path.isdir`. -/
  isdir : String → Bool
  /-- `os.path.abspath`. -/
  abspath : String → String
  /-- `os.listdir`; `Except.error` is the caught `OSError` text. -/
  listdir : String → Except String (List String)
  /-- `os.stat(..).st_size`; `none` is a caught `OSError`. -/
  statSize : String → Option Nat
  /-- `shlex.split`; `Except.error` is the exception text of a failed split. -/
  tokenize : String → Except String (List String)
  /-- `shutil.which(name) is not None`. -/
  whichFound : String → Bool
  /-- `os.path.exists`. -/
  pathExists : String → Bool
  /-- `subprocess.run(command, shell=True, cwd=path, ...)` on Windows. -/
  runShell : String → String → RunOutcome
  /-- `subprocess.run(argv, cwd=path, ...)` on Unix. -/
  runArgv : List String → String → RunOutcome
  /-- `datetime.now().isoformat()` at the time of the request. -/
  now : String

/-- The generative oracle: `model.generate_content(prompt).text`, or the
text of a raised exception.  The argument is the prompt built by the
caller (`none` models the dead code path where a `None` prompt would be
passed on). -/
def Oracle : Type := Option String → Except String String

/-! ## Intent Matcher (app.py 268-285) -/

/-- `extract_parameters_from_query` (app.py 268-273). -/
def extract_parameters_from_query (env : PyEnv) (query pat : String) : List String :=
  if env.search pat query then env.groups pat query else []

/-- The loop body of `match_command_pattern`: first intent in table
order, first matching pattern inside the intent. -/
def matchPatternsGo (env : PyEnv) (query : String) :
    List (String × CommandInfo) → Option String × List String × Option CommandInfo
  | [] => (none, [], none)
  | (cmd_type, cmd_info) :: rest =>
    match cmd_info.patterns.find? (fun p => env.search p query) with
    | some p => (some cmd_type, extract_parameters_from_query env query p, some cmd_info)
    | none => matchPatternsGo env query rest

/-- `match_command_pattern(query)` (app.py 275-285).  The query is
lowered and stripped first; the no-match sentinel `(None, [], {})` is
modelled as `(none, [], none)`. -/
def match_command_pattern (env : PyEnv) (query0 : String) :
    Option String × List String × Option CommandInfo :=
  matchPatternsGo env (pyStrip (pyLower query0)) COMMAND_PATTERNS

/-! ## Command Builder (`build_smart_command`, app.py 287-329) -/

/-- `ext.replace('*', '')`. -/
def removeStars (s : String) : String := String.mk (s.data.filter (fun c => c ≠ '*'))

/-- `build_smart_command` (app.py 287-329).  Returns `none` exactly when
the intent carries `builtin_override` (the Python `return None`). -/
def build_smart_command (isWindows : Bool) (cmd_type : String) (params : List String)
    (cmd_info : CommandInfo) : Option String :=
  if cmd_info.builtin_override then none
  else
    let base_cmd :=
      if isWindows then cmd_info.windows_cmd.getD (cmd_info.unix_cmd.getD "")
      else cmd_info.unix_cmd.getD (cmd_info.windows_cmd.getD "")
    if params ≠ [] then
      if cmd_type = "find_files" then
        let ext := params.headD ""
        let ext :=
          if pyContains (pyLower ext) "python" then "*.py"
          else if pyContains (pyLower ext) "text" then "*.txt"
          else if pyContains (pyLower ext) "image" then "*.jpg"
          else if pyContains (pyLower ext) "document" then "*.doc*"
          else if pyStartsWith ext "*" = false then "*" ++ ext ++ "*"
          else ext
        some (pyFormat1 base_cmd "{ext}" (removeStars ext))
      else if cmd_type = "create_file" ∨ cmd_type = "show_content" ∨ cmd_type = "file_size"
          ∨ cmd_type = "delete_file" then
        some (pyFormat1 base_cmd "{filename}" (params.headD "newfile.txt"))
      else if cmd_type = "create_directory" ∨ cmd_type = "change_directory" then
        some (pyFormat1 base_cmd "{dirname}"
          (params.headD (if cmd_type = "create_directory" then "newfolder" else ".")))
      else if cmd_type = "copy_file" ∨ cmd_type = "move_file" then
        let source := params.headD "source"
        let dest := (params.drop 1).headD "destination"
        some (pyFormat1 (pyFormat1 base_cmd "{source}" source) "{dest}" dest)
      else some base_cmd
    else some base_cmd

/-! ## Session Context Store (app.py 45, 220-266) -/

/-- One element of `context['command_history']`. -/
structure HistoryEntry where
  command : String
  timestamp : String
  operation_type : Option String
deriving DecidableEq

/-- One per-session context dictionary (app.py 223-229). -/
structure SessionContext where
  command_history : List HistoryEntry
  output_history : List String
  current_files : List String
  last_operation : Option String
  max_history : Nat
deriving DecidableEq

/-- The process-wide `session_contexts` dictionary. -/
def Store : Type := String → Option SessionContext

/-- The dictionary at process start: empty. -/
def emptyStore : Store := fun _ => none

/-- The context created lazily on first use (app.py 223-229). -/
def freshSessionContext : SessionContext := ⟨[], [], [], none, 10⟩

/-- Functional dictionary write. -/
def storeSet (store : Store) (sid : String) (c : SessionContext) : Store :=
  fun k => if k = sid then some c else store k

/-- `get_session_context(session_id)` (app.py 220-230): returns the
context and the possibly-extended dictionary (lazy creation). -/
def get_session_context (store : Store) (sid : String) : SessionContext × Store :=
  match store sid with
  | some c => (c, store)
  | none => (freshSessionContext, storeSet store sid freshSessionContext)

/-- The filename-extraction heuristic of `update_session_context`
(app.py 245-261): per line, skip blank and robot-prefixed lines, handle
the Windows `<DIR>` format, else keep the stripped line; cap at 20. -/
def parseListedFiles (output : String) : List String :=
  ((splitLines (pyStrip output)).filterMap (fun line =>
    if pyStrip line ≠ "" ∧ pyStartsWith line "🤖" = false then
      if pyContains line "<DIR>" then
        let parts := pySplit line
        if 1 < parts.length then some (joinSep " " (parts.drop 1)) else none
      else if pyStrip line ≠ "" then some (pyStrip line)
      else none
    else none)).take 20

/-- The arguments of one `update_session_context` call (the timestamp is
the ambient `datetime.now().isoformat()`). -/
structure UpdateOp where
  sid : String
  command : String
  timestamp : String
  output : String
  operation_type : Option String
deriving DecidableEq

/-- The history entry appended by an update. -/
def toEntry (op : UpdateOp) : HistoryEntry := ⟨op.command, op.timestamp, op.operation_type⟩

/-- The in-place mutation performed by `update_session_context` on one
context dictionary (app.py 236-266): append to both histories, set
`last_operation`, recompute `current_files` for listing operations, then
evict the oldest entries when the history exceeds `max_history`. -/
def updateContextPure (context : SessionContext) (op : UpdateOp) : SessionContext :=
  let ch := context.command_history ++ [toEntry op]
  let oh := context.output_history ++ [op.output]
  let cf :=
    if (op.operation_type = some "list_files" ∨ op.operation_type = some "list_hidden")
        ∧ op.output ≠ "" then
      parseListedFiles op.output
    else context.current_files
  let ch2 := if context.max_history < ch.length then takeLast context.max_history ch else ch
  let oh2 := if context.max_history < ch.length then takeLast context.max_history oh else oh
  ⟨ch2, oh2, cf, op.operation_type, context.max_history⟩

/-- `update_session_context` (app.py 232-266): fetch (or lazily create)
the session context, mutate it, write it back. -/
def update_session_context (store : Store) (op : UpdateOp) : Store :=
  let gc := get_session_context store op.sid
  storeSet gc.2 op.sid (updateContextPure gc.1 op)

/-- A sequence of update calls against the store. -/
def applyUpdates (store : Store) (ops : List UpdateOp) : Store :=
  ops.foldl update_session_context store

/-! ## Executor (`execute_system_command`, app.py 497-547) -/

/-- The translation of a child-process outcome into the Executor's
result string (app.py 535-547): stripped stdout or a success marker on
exit 0, stripped stderr or a failure marker otherwise, and literal
markers for timeout / not-found / other exceptions. -/
def runResultString (r : RunOutcome) (command : String) : String :=
  match r with
  | .completed rc out err =>
    if rc = 0 then pyStrip (if out ≠ "" then out else "✅ Command executed successfully")
    else pyStrip (if err ≠ "" then err else "❌ Command failed (exit code: " ++ toString rc ++ ")")
  | .timedOut => "⏱️ Command timed out after 30 seconds"
  | .fileNotFound f => "❌ Command not found: " ++ f.getD command
  | .raisedOther m => "❌ Error executing command: " ++ m

/-- `execute_system_command(command, current_path)` (app.py 497-547).
Windows: run through the shell.  Unix: tokenize, resolve the executable
via `which` or by probing `/bin`, `/usr/bin`, `/usr/local/bin`, then run
the argv vector.  Every failure is a returned string, never a raised
exception (the embedding is a total function). -/
def execute_system_command (env : PyEnv) (command current_path : String) : String :=
  if env.isWindows then
    runResultString (env.runShell command current_path) command
  else
    match env.tokenize command with
    | .error e => "❌ Error executing command: " ++ e
    | .ok command_parts =>
      match command_parts with
      | [] => runResultString (env.runArgv [] current_path) command
      | base_command :: rest =>
        if env.whichFound base_command then
          runResultString (env.runArgv (base_command :: rest) current_path) command
        else
          match ["/bin/", "/usr/bin/", "/usr/local/bin/"].find?
              (fun p => env.pathExists (p ++ base_command)) with
          | some p => runResultString (env.runArgv ((p ++ base_command) :: rest) current_path) command
          | none => "❌ Command not found: " ++ base_command

/-! ## Oracle-response cleanup (app.py 452-460) -/

/-- The backtick character (written by code so that no backtick appears
outside strings). -/
def btick : Char := Char.ofNat 96

/-- Python `\w` on ASCII: letters, digits, underscore. -/
def isWordChar (c : Char) : Bool := c.isAlphanum || c = '_'

/-- Drop one leading newline if present (the `\n?` of the fence regex). -/
def dropOptNl : List Char → List Char
  | [] => []
  | c :: cs => if c = '\n' then cs else c :: cs

/-- `dropOptNl` never lengthens a list. -/
lemma dropOptNl_length_le (l : List Char) : (dropOptNl l).length ≤ l.length := by
  cases l with
  | nil => simp [dropOptNl]
  | cons x xs =>
    simp only [dropOptNl]
    split <;> simp

/-- The recursion worker of `stripFencesList`.  The fuel argument is an
implementation device making the recursion structural (so that the
kernel can evaluate it); any fuel of at least the list length gives the
same result, since every step consumes at least one character. -/
def stripFencesFuel : Nat → List Char → List Char
  | 0, l => l
  | _ + 1, [] => []
  | fuel + 1, c :: cs =>
    if c = btick ∧ cs.take 2 = [btick, btick] then
      stripFencesFuel fuel (dropOptNl ((cs.drop 2).dropWhile isWordChar))
    else
      c :: stripFencesFuel fuel cs

/-- `re.sub(r'```[\w]*\n?', '', s)`: remove every leftmost,
non-overlapping fence marker — three backticks, greedy word characters,
an optional newline. -/
def stripFencesList (l : List Char) : List Char := stripFencesFuel l.length l

/-- The response post-processing of `get_ai_command` (app.py 453-457):
strip, remove fence markers, remove backticks, strip. -/
def cleanupResponse (text : String) : String :=
  let command := pyStrip text
  let command := String.mk (stripFencesList command.data)
  let command := String.mk (command.data.filter (fun c => c ≠ btick))
  pyStrip command

/-! ## `get_ai_command` (app.py 422-469), with an event trace -/

/-- Instrumentation of the pipeline: each call of the Security Validator
and each command handed to the Executor, in program order. -/
inductive Event where
  | validated (command : String) (result : Bool × Option String)
  | executed (command : String)
deriving DecidableEq

/-- Python truthiness of the optional `session_id` argument. -/
def truthyOpt : Option String → Bool
  | none => false
  | some s => s ≠ ""

/-- The pattern-matching first phase of `get_ai_command`
(app.py 429-440): on a pattern hit return the built-in override marker
or the smart-built command; otherwise signal fall-through to the oracle. -/
def aiPatternPhase (env : PyEnv) (store : Store) (query : String)
    (session_id : Option String) : Store × Option (Option String × String) :=
  if truthyOpt session_id then
    let sid := session_id.getD ""
    let store1 := (get_session_context store sid).2
    match match_command_pattern env query with
    | (some cmd_type, params, some cmd_info) =>
      if cmd_info.builtin_override then
        (store1, some (some "BUILTIN_OVERRIDE", "🎯 Built-in handler: " ++ cmd_info.description))
      else
        match build_smart_command env.isWindows cmd_type params cmd_info with
        | some sc =>
          if sc ≠ "" then (store1, some (some sc, "🎯 Smart match: " ++ cmd_info.description))
          else (store1, none)
        | none => (store1, none)
    | _ => (store1, none)
  else (store, none)

/-- `get_contextual_suggestions` (app.py 331-343). -/
def get_contextual_suggestions (query : String) (context : SessionContext) : List String :=
  if context.last_operation = some "list_files" then
    if pyContains (pyLower query) "count" then ["Count the files that were just listed"]
    else if pyContains (pyLower query) "python" ∧ context.current_files ≠ [] then
      let py_files := context.current_files.filter (fun f => pyEndsWith f ".py")
      if py_files ≠ [] then ["Found " ++ toString py_files.length ++ " Python files"]
      else []
    else []
  else []

/-- The numbered recent-command lines of the contextual prompt
(app.py 358-361). -/
def recentContextLinesAux : Nat → List HistoryEntry → String
  | _, [] => ""
  | i, e :: rest =>
    toString i ++ ". " ++ e.command ++ " ("
      ++ (match e.operation_type with | some s => s | none => "None") ++ ")\n"
      ++ recentContextLinesAux (i + 1) rest

/-- The Windows command-examples block (app.py 375-385). -/
def commandExamplesWindows : String :=
  "\n    WINDOWS COMMANDS:\n    - List files: \"dir\" or \"dir /a\" (with hidden)\n    - Find files: \"dir *.py /s\" (Python files)\n    - File content: \"type filename.txt\"\n    - Create file: \"type nul > newfile.txt\"\n    - Copy: \"copy source.txt dest.txt\"\n    - System info: \"systeminfo\"\n    - Processes: \"tasklist\"\n    - Network: \"ipconfig\"\n        "

/-- The Unix command-examples block (app.py 387-397). -/
def commandExamplesUnix : String :=
  "\n    UNIX/LINUX COMMANDS:\n    - List files: \"ls -la\"\n    - Find files: \"find . -name '*.py'\"\n    - File content: \"cat filename.txt\"\n    - Create file: \"touch newfile.txt\"\n    - Copy: \"cp source.txt dest.txt\"\n    - System info: \"uname -a\"\n    - Processes: \"ps aux\"\n    - Network: \"ifconfig\"\n        "

/-- The final contextual prompt text (app.py 399-420). -/
def enhancedPromptText (env : PyEnv) (query context_info command_examples : String) : String :=
  "\n    You are an expert system administrator with advanced natural language understanding.\n    Convert the user's request into a single, executable command for "
    ++ (if env.isWindows then "Windows" else "Unix/Linux")
    ++ ".\n    \n    ENHANCED GUIDELINES:\n    - Return ONLY the command, no explanations\n    - Consider the context from recent operations\n    - Use the most appropriate command for the user's intent\n    - If referencing files from context, use those specific filenames\n    - Handle ambiguous requests intelligently\n    "
    ++ command_examples
    ++ "\n    \n    CONTEXT-AWARE PROCESSING:\n    - If user says \"count them\" after listing files, use file count command\n    - If user asks about specific file types, use appropriate search\n    - If user refers to \"that file\" or \"it\", use context to determine what file\n    - For follow-up questions, consider the previous operation\n    \n    User Request: \"" ++ query ++ "\"" ++ context_info
    ++ "\n    \n    Command:\n    "

/-- `build_enhanced_prompt(natural_language_query, session_id)`
(app.py 345-420): a pattern hit short-circuits to the smart command;
otherwise the contextual prompt is assembled from the session history. -/
def build_enhanced_prompt (env : PyEnv) (store : Store) (query sid : String) :
    (Option String × String) × Store :=
  let gc := get_session_context store sid
  let context := gc.1
  let store1 := gc.2
  match match_command_pattern env query with
  | (some cmd_type, params, some cmd_info) =>
    ((build_smart_command env.isWindows cmd_type params cmd_info,
      "🎯 Pattern matched: " ++ cmd_info.description), store1)
  | _ =>
    let context_info :=
      if context.command_history ≠ [] then
        "\n\nRecent context:\n" ++ recentContextLinesAux 1 (takeLast 3 context.command_history)
      else ""
    let context_info :=
      if context.current_files ≠ [] then
        context_info ++ "\nCurrent directory contains: "
          ++ joinSep ", " (context.current_files.take 5)
          ++ (if 5 < context.current_files.length then
                " and " ++ toString (context.current_files.length - 5) ++ " more..."
              else "")
      else context_info
    let suggestions := get_contextual_suggestions query context
    let context_info :=
      if suggestions ≠ [] then
        context_info ++ "\n\nSmart suggestions: " ++ joinSep "; " suggestions
      else context_info
    let command_examples := if env.isWindows then commandExamplesWindows else commandExamplesUnix
    ((some (enhancedPromptText env query context_info command_examples),
      "🧠 AI processing with enhanced context"), store1)

/-- The fallback prompt used when no session id is supplied
(app.py 446-449). -/
def simplePrompt (env : PyEnv) (query : String) : String :=
  "\n            Convert this request to a "
    ++ (if env.isWindows then "Windows" else "Unix/Linux")
    ++ " command.\n            Return only the command: \"" ++ query ++ "\"\n            "

/-- The oracle call, response cleanup, refusal-sentinel check and
security validation of `get_ai_command` (app.py 452-466), as a function
of the already-built prompt and feedback. -/
def oracleCleanupStep (oracle : Oracle) (prompt : Option String) (feedback : String) :
    (Option String × String) × List Event :=
  match oracle prompt with
  | .error e => ((none, "Error processing request: " ++ e), [])
  | .ok text =>
    let command := cleanupResponse text
    if pyStartsWith command "Error:" then ((none, command), [])
    else
      let v := validate_command_security command
      if v.1 then ((some command, feedback), [Event.validated command v])
      else ((none, "Security validation failed: "
              ++ (match v.2 with | some m => m | none => "None")),
            [Event.validated command v])

/-- `get_ai_command(natural_language_query, session_id)` (app.py
422-469), returning the `(command-or-None, feedback)` pair, the updated
session store, and the trace of validator calls it performed. -/
def get_ai_command (env : PyEnv) (oracle : Oracle) (store : Store) (query : String)
    (session_id : Option String) : (Option String × String) × Store × List Event :=
  if env.aiEnabled = false then
    ((none, "AI features are not configured. Please set the GOOGLE_API_KEY."), store, [])
  else
    match aiPatternPhase env store query session_id with
    | (store1, some res) => (res, store1, [])
    | (store1, none) =>
      let pfs :=
        if truthyOpt session_id then
          let bep := build_enhanced_prompt env store1 query (session_id.getD "")
          (bep.1.1, bep.1.2, bep.2)
        else (some (simplePrompt env query), "🤖 AI processing", store1)
      let step := oracleCleanupStep oracle pfs.1 pfs.2.1
      (step.1, pfs.2.2, step.2)

/-! ## `/command` endpoint (`handle_command`, app.py 549-763) -/

/-- The JSON body of a `/command` request after defaulting
(`data.get('command','')`, `data.get('sessionId','default')`,
`data.get('path','~')`). -/
structure Request where
  command : String
  sessionId : String
  path : String

/-- The JSON reply: `{'output', 'new_path'}`, `{'error', 'new_path'}`,
or an early HTTP-400 rejection. -/
inductive Response where
  | ok (output : String) (new_path : String)
  | err (error : String) (new_path : String)
  | badRequest (error : String)
deriving DecidableEq

/-- `os.path.join` (POSIX semantics: an absolute second component
replaces the first; this is what the deployment platform of the Unix
branch uses). -/
def pyJoin (a b : String) : String :=
  if pyStartsWith b "/" then b
  else if a = "" ∨ pyEndsWith a "/" then a ++ b
  else a ++ "/" ++ b

/-- Insertion into a sorted list (stable, ascending). -/
def insertSorted (x : String) : List String → List String
  | [] => [x]
  | y :: ys => if x ≤ y then x :: y :: ys else y :: insertSorted x ys

/-- Python `sorted` on strings (ascending code-point order). -/
def sortStrings (l : List String) : List String := l.foldr insertSorted []

/-- The built-in `ls` branch (app.py 571-602). -/
def lsBranch (env : PyEnv) (store : Store) (sid command_full : String)
    (parts : List String) (current_path new_path : String) :
    Response × Store × List Event :=
  let path_arg := (parts.drop 1).headD "."
  let target_path := pyJoin current_path path_arg
  let show_hidden := parts.contains "-a" || parts.contains "-la" || parts.contains "-al"
  let show_long := parts.contains "-l" || parts.contains "-la" || parts.contains "-al"
  match env.listdir target_path with
  | .error e => (Response.err ("ls: " ++ e) new_path, store, [])
  | .ok files0 =>
    let files := if show_hidden then files0
                 else files0.filter (fun f => pyStartsWith f "." = false)
    let output :=
      if show_long then
        joinSep "\n" ((sortStrings files).map (fun file =>
          let file_path := pyJoin target_path file
          match env.statSize file_path with
          | some size =>
            let is_dir := env.isdir file_path
            let permissions := if is_dir then "drwxr-xr-x" else "-rw-r--r--"
            permissions ++ " " ++ padLeft 8 (toString size) ++ " " ++ file
          | none => "????????? " ++ file))
      else joinSep "\n" (sortStrings files)
    let store1 := update_session_context store
      ⟨sid, command_full, env.now, output, some "list_files"⟩
    (Response.ok output new_path, store1, [])

/-- The built-in Windows `dir` branch (app.py 604-630). -/
def dirBranch (env : PyEnv) (store : Store) (sid command_full : String)
    (parts : List String) (current_path new_path : String) :
    Response × Store × List Event :=
  let p1 := (parts.drop 1).headD ""
  let path_arg := if 1 < parts.length ∧ pyStartsWith p1 "/" = false then p1 else "."
  let show_hidden := parts.contains "/a" || parts.contains "/A"
  match env.listdir (pyJoin current_path path_arg) with
  | .error e => (Response.err ("dir: " ++ e) new_path, store, [])
  | .ok files0 =>
    let files := if show_hidden then files0
                 else files0.filter (fun f => pyStartsWith f "." = false)
    let output := joinSep "\n" ((sortStrings files).map (fun file =>
      let file_path := pyJoin (pyJoin current_path path_arg) file
      match env.statSize file_path with
      | some sz =>
        let is_dir := env.isdir file_path
        let size := if is_dir then 0 else sz
        let dir_marker := if is_dir then "<DIR>" else padLeft 10 (toString size)
        dir_marker ++ " " ++ file
      | none => "       ??? " ++ file))
    let store1 := update_session_context store
      ⟨sid, command_full, env.now, output, some "list_files"⟩
    (Response.ok output new_path, store1, [])

/-- The built-in `cd` branch (app.py 633-645): never touches the session
store. -/
def cdBranch (env : PyEnv) (store : Store) (parts : List String)
    (current_path new_path : String) : Response × Store × List Event :=
  if parts.length < 2 then
    (Response.ok ("Changed directory to " ++ env.home) env.home, store, [])
  else
    let path_arg := (parts.drop 1).headD ""
    let potential_path := pyJoin current_path path_arg
    if env.isdir potential_path then
      let np := env.abspath potential_path
      (Response.ok ("Changed directory to " ++ np) np, store, [])
    else
      (Response.err ("cd: no such file or directory: " ++ path_arg) current_path, store, [])

/-- The `help` text (app.py 653-712; the `{'=' * 40}` interpolations are
rendered). -/
def helpText : String :=
  "\n🚀 PyTerminal - Enhanced AI Terminal\n========================================\n\n[Built-in Commands]\n  ls, dir           List files and directories\n  cd [path]         Change directory\n  pwd               Show current directory\n  mkdir [name]      Create directory\n  rm [file]         Remove file\n  help              Show this help\n  clear             Clear terminal\n\n[Smart NLP Commands - Just type naturally!]\n  📁 File Operations:\n     • \"show all files\" / \"list everything\"\n     • \"find Python files\" / \"search for .txt files\"\n     • \"count files\" / \"how many files\"\n     • \"show hidden files\"\n     \n  📄 File Content:\n     • \"show content of file.txt\"\n     • \"what's in readme.md\"\n     • \"read config.json\"\n     \n  🔧 File Management:\n     • \"create file test.py\"\n     • \"copy file.txt to backup.txt\"\n     • \"delete old.log\"\n     • \"make folder documents\"\n     \n  💻 System Info:\n     • \"system information\"\n     • \"running processes\" / \"what's running\"\n     • \"network info\" / \"ip address\"\n     • \"disk usage\" / \"free space\"\n\n[Smart Context Features]\n  🧠 Contextual Understanding:\n     • Remembers recent commands and files\n     • \"count them\" after listing files\n     • \"show that file\" referring to previous results\n     \n  🎯 Pattern Matching:\n     • Fast recognition of common requests\n     • Smart parameter extraction\n     • Cross-platform compatibility\n\n[Examples]\n  Instead of: ls -la | grep py\n  Just say:   \"find Python files\"\n  \n  Instead of: cat readme.txt\n  Just say:   \"show readme content\"\n  \n  Instead of: mkdir -p project/src\n  Just say:   \"create folder project/src\"\n\n💡 Tip: The AI learns from context - your previous commands help it understand follow-up requests better!\n"

/-- The built-in-override handling of `handle_command` (app.py
726-748): re-match the input; on a `change_directory` hit with a
parameter, perform the built-in cd (recording the session update on
success); otherwise report the unimplemented built-in. -/
def builtinOverrideBranch (env : PyEnv) (store1 : Store)
    (sid feedback command_full current_path new_path : String) (evs : List Event) :
    Response × Store × List Event :=
  match match_command_pattern env command_full with
  | (some cmd_type, params, _) =>
    if cmd_type = "change_directory" ∧ params ≠ [] then
      let path_arg := params.headD ""
      let potential_path := pyJoin current_path path_arg
      if env.isdir potential_path then
        let np := env.abspath potential_path
        let store2 := update_session_context store1
          ⟨sid, "cd \"" ++ path_arg ++ "\"", env.now, "Changed to " ++ np,
           some "change_directory"⟩
        (Response.ok (feedback ++ "\nChanged directory to " ++ np) np, store2, evs)
      else
        (Response.err (feedback ++ "\nDirectory not found: " ++ path_arg) current_path,
         store1, evs)
    else (Response.err "Built-in command not implemented" new_path, store1, evs)
  | _ => (Response.err "Built-in command not implemented" new_path, store1, evs)

/-- The natural-language fall-through branch of `handle_command`
(app.py 719-760): ask `get_ai_command`, handle the built-in override,
otherwise execute the obtained command and record the session update. -/
def nlpBranch (env : PyEnv) (oracle : Oracle) (store : Store)
    (sid command_full current_path new_path : String) : Response × Store × List Event :=
  let gac := get_ai_command env oracle store command_full (some sid)
  let ai_command := gac.1.1
  let feedback := gac.1.2
  let store1 := gac.2.1
  let evs := gac.2.2
  match ai_command with
  | none =>
    (Response.err (if feedback = "" then "Could not process command" else feedback) new_path,
     store1, evs)
  | some ac =>
    if ac = "" then
      (Response.err (if feedback = "" then "Could not process command" else feedback) new_path,
       store1, evs)
    else if ac = "BUILTIN_OVERRIDE" then
      builtinOverrideBranch env store1 sid feedback command_full current_path new_path evs
    else
      let mcp := match_command_pattern env command_full
      let operation_type := match mcp.1 with | some t => t | none => "unknown"
      let output := execute_system_command env ac current_path
      let final_output := feedback ++ "\n" ++ output
      let store2 := update_session_context store1
        ⟨sid, ac, env.now, output, some operation_type⟩
      (Response.ok final_output new_path, store2, evs ++ [Event.executed ac])

/-- The command dispatch of `handle_command` after input stripping,
length check and working-directory resolution (app.py 565-760). -/
def handleCore (env : PyEnv) (oracle : Oracle) (command_full session_id current_path : String)
    (store : Store) : Response × Store × List Event :=
  let new_path := current_path
  let parts := pySplit command_full
  let command_key := parts.headD ""
  if command_key = "ls" then
    lsBranch env store session_id command_full parts current_path new_path
  else if command_key = "dir" ∧ env.isWindows then
    dirBranch env store session_id command_full parts current_path new_path
  else if command_key = "cd" then
    cdBranch env store parts current_path new_path
  else if command_key = "pwd" then
    let output := current_path
    let store1 := update_session_context store
      ⟨session_id, command_full, env.now, output, some "show_path"⟩
    (Response.ok output new_path, store1, [])
  else if command_key = "help" then
    let store1 := update_session_context store
      ⟨session_id, command_full, env.now, helpText, some "help"⟩
    (Response.ok helpText new_path, store1, [])
  else if command_key = "clear" then
    (Response.ok "" new_path, store, [])
  else
    nlpBranch env oracle store session_id command_full current_path new_path

/-- `handle_command` (app.py 549-763): strip the command, reject
over-long input, fall back to the home directory for a `'~'` or
non-directory path, then dispatch.  The `try/except` wrapper is vacuous
in the embedding (all operations are total). -/
def handle_command (env : PyEnv) (oracle : Oracle) (req : Request) (store : Store) :
    Response × Store × List Event :=
  let command_full := pyStrip req.command
  if 1000 < pyLen command_full then
    (Response.badRequest "Command too long (max 1000 characters)", store, [])
  else
    let current_path :=
      if req.path = "~" ∨ env.isdir req.path = false then env.home else req.path
    handleCore env oracle command_full req.sessionId current_path store

/-! ## The mandatory-gate property as a trace predicate -/

/-- Is this event a successful validation of command `c`? -/
def isValidatedSafeFor (c : String) : Event → Bool
  | Event.validated c2 r => c2 == c && r.1
  | _ => false

/-- Helper: walks the trace with the already-seen prefix. -/
def allExecValidatedAux : List Event → List Event → Bool
  | _, [] => true
  | prev, e :: rest =>
    (match e with
     | Event.executed c => prev.any (isValidatedSafeFor c)
     | _ => true) && allExecValidatedAux (prev ++ [e]) rest

/-- Formalisation of the mandatory-gate claim over a trace: every command
handed to the Executor was earlier returned safe by the Security
Validator. -/
def allExecutedValidated (evs : List Event) : Bool := allExecValidatedAux [] evs

/-! ## Concrete environments used by counterexamples and witnesses.

`mockSearch` fixes the abstract regex engine on exactly the
(pattern, query) pairs the concrete inputs below exercise, agreeing with
CPython `re.search` there: `re.search(r'(?:count|how many)\s+files?',
"count files", re.IGNORECASE)` matches with no capture groups, and no
pattern of the two earlier table entries (`list_files`, `list_hidden`)
matches `"count files"`. -/

/-- Regex engine instance: only the first `count_files` pattern matches
the query `"count files"`; everything else fails. -/
def mockSearch : String → String → Bool := fun p q =>
  p == "(?:count|how many)\\s+files?" && q == "count files"

/-- An oracle that is never consulted successfully. -/
def oracle0 : Oracle := fun _ => Except.error "oracle unavailable"

/-- A Unix environment with AI configured, home `/root`, every
executable resolvable, and a child process that prints `3`. -/
def E0 : PyEnv :=
  ⟨false, true, mockSearch, fun _ _ => [], "/root", fun p => p == "/root",
   fun p => p, fun _ => Except.error "no such directory", fun _ => none,
   fun s => Except.ok (pySplit s), fun _ => true, fun _ => false,
   fun _ _ => RunOutcome.completed 0 "" "",
   fun _ _ => RunOutcome.completed 0 "3\n" "", "2024-01-01T00:00:00"⟩

/-- The same environment with the oracle unconfigured
(`AI_ENABLED = False`). -/
def E0off : PyEnv :=
  ⟨false, false, mockSearch, fun _ _ => [], "/root", fun p => p == "/root",
   fun p => p, fun _ => Except.error "no such directory", fun _ => none,
   fun s => Except.ok (pySplit s), fun _ => true, fun _ => false,
   fun _ _ => RunOutcome.completed 0 "" "",
   fun _ _ => RunOutcome.completed 0 "3\n" "", "2024-01-01T00:00:00"⟩

/-- The request `"count files"` for session `s` in `/root`. -/
def req0 : Request := ⟨"count files", "s", "/root"⟩

/-- C1, counterexample.  On the request `"count files"` the Intent
Matcher resolves the non-builtin intent `count_files`, the pattern-built
command `ls -1 | wc -l` is handed to the Executor, and the trace contains
no validator call at all: the pattern-built path bypasses
`validate_command_security`, so the claimed mandatory gate fails. -/
theorem c1_counterexample :
    (handle_command E0 oracle0 req0 emptyStore).2.2 = [Event.executed "ls -1 | wc -l"] ∧
    allExecutedValidated (handle_command E0 oracle0 req0 emptyStore).2.2 = false := by
  exact ⟨rfl, rfl⟩

/-- C4, counterexample.  The input `"count files"` matches a declared
pattern, yet the result differs depending on whether the oracle is
configured: with `AI_ENABLED` the smart command is returned, without it
the request is rejected before pattern matching is even attempted. -/
theorem c4_counterexample :
    (get_ai_command E0 oracle0 emptyStore "count files" (some "s")).1
      = (some "ls -1 | wc -l", "🎯 Smart match: Count files in directory") ∧
    (get_ai_command E0off oracle0 emptyStore "count files" (some "s")).1
      = (none, "AI features are not configured. Please set the GOOGLE_API_KEY.") ∧
    (get_ai_command E0 oracle0 emptyStore "count files" (some "s")).1
      ≠ (get_ai_command E0off oracle0 emptyStore "count files" (some "s")).1 := by
  exact ⟨rfl, rfl, by decide⟩

/-- C2, counterexample.  `frobnicate` is the first whitespace-delimited
token of `"frobnicate xyz"` and appears in no allow-list of the program
(`BUILTIN_COMMANDS` on either platform), yet the Security Validator
returns safe: `validate_command_security` performs no first-token
allow-list check. -/
theorem c2_counterexample :
    (pySplit "frobnicate xyz").headD "" = "frobnicate" ∧
    "frobnicate" ∉ BUILTIN_COMMANDS true ∧
    "frobnicate" ∉ BUILTIN_COMMANDS false ∧
    validate_command_security "frobnicate xyz" = (true, none) := by
  exact ⟨rfl, by decide, by decide, rfl⟩

/-- A Unix environment whose child process exits 0 with stdout
`"hello\n"`. -/
def E6 : PyEnv :=
  ⟨false, false, fun _ _ => false, fun _ _ => [], "/", fun _ => true,
   fun p => p, fun _ => Except.error "no such directory", fun _ => none,
   fun _ => Except.ok ["echo", "hi"], fun _ => true, fun _ => false,
   fun _ _ => RunOutcome.completed 0 "" "",
   fun _ _ => RunOutcome.completed 0 "hello\n" "", "2024-01-01T00:00:00"⟩

/-- C6, counterexample.  The child exits with status zero and captured
stdout `"hello\n"`, but the Executor returns the whitespace-trimmed
string `"hello"`, not the captured stdout itself. -/
theorem c6_counterexample :
    execute_system_command E6 "echo hi" "/" = "hello" ∧
    ("hello" : String) ≠ "hello\n" := by
  exact ⟨rfl, by decide⟩

/-- C7, counterexample.  For a fenced two-line oracle response the
post-processing removes the fence markers but keeps the whole multi-line
body: it does not extract the first non-empty line inside the fence. -/
theorem c7_counterexample :
    cleanupResponse "```\nls -la\npwd\n```" = "ls -la\npwd" ∧
    ("ls -la\npwd" : String) ≠ "ls -la" := by
  exact ⟨rfl, by decide⟩

/-! ## C2 (amended) and C3: the Security Validator -/

/-- C2, amended.  `validate_command_security` applies no allow-list to
the command's first token: it returns safe exactly when the command is
non-empty, contains no deny-listed fragment (case-insensitively), and is
at most 500 characters — the first token is never consulted. -/
theorem c2_validator_has_no_allowlist (cmd : String) :
    (validate_command_security cmd).1 = true ↔
      (cmd ≠ "" ∧ (∀ p ∈ dangerous_patterns, pyContains (pyLower cmd) p = false)
        ∧ pyLen cmd ≤ 500) := by
  by_cases hemp : cmd = ""
  · subst hemp
    simp [validate_command_security]
  · simp only [validate_command_security, if_neg hemp]
    cases hfind : dangerous_patterns.find? (fun p => pyContains (pyLower cmd) p) with
    | some p =>
      simp only [hfind]
      constructor
      · intro h; cases h
      · rintro ⟨-, hall, -⟩
        have hp := List.find?_some hfind
        have hm := List.mem_of_find?_eq_some hfind
        rw [hall p hm] at hp
        cases hp
    | none =>
      rw [List.find?_eq_none] at hfind
      simp only [List.find?_eq_none.mpr (fun x hx => hfind x hx)]
      by_cases hlen : 500 < pyLen cmd
      · simp only [if_pos hlen]
        constructor
        · intro h; cases h
        · rintro ⟨-, -, hle⟩; omega
      · simp only [if_neg hlen]
        refine ⟨fun _ => ⟨hemp, fun p hp => ?_, by omega⟩, fun _ => by simp⟩
        have := hfind p hp
        simpa using this

/-- C2, witness: the theorem applied at `"frobnicate xyz"` shows a
command with a non-allow-listed first token passing validation. -/
theorem c2_witness :
    (validate_command_security "frobnicate xyz").1 = true :=
  (c2_validator_has_no_allowlist "frobnicate xyz").mpr
    ⟨by decide, by decide, by decide⟩

/-- C3.  Any command containing (case-insensitively) a deny-listed
fragment is rejected — whatever its first token — and the reason names
the matched fragment. -/
theorem c3_denylist_rejects (cmd p : String) (hp : p ∈ dangerous_patterns)
    (hc : pyContains (pyLower cmd) p = true) :
    ∃ q ∈ dangerous_patterns, pyContains (pyLower cmd) q = true ∧
      validate_command_security cmd
        = (false, some ("Blocked dangerous command: " ++ q)) := by
  have hemp : cmd ≠ "" := by
    intro h
    subst h
    have hne : p ≠ "" := by
      have hall : ∀ q ∈ dangerous_patterns, q ≠ "" := by decide
      exact hall p hp
    have hdat : p.data ≠ [] := by
      intro hd
      apply hne
      cases p with
      | mk l => cases hd; rfl
    have : pyContains (pyLower "") p = p.data.isEmpty := rfl
    rw [this] at hc
    exact hdat (List.isEmpty_iff.mp hc)
  have hsome : (dangerous_patterns.find? (fun q => pyContains (pyLower cmd) q)).isSome := by
    rw [List.find?_isSome]
    exact ⟨p, hp, hc⟩
  obtain ⟨y, hy⟩ := Option.isSome_iff_exists.mp hsome
  refine ⟨y, List.mem_of_find?_eq_some hy, List.find?_some hy, ?_⟩
  simp only [validate_command_security, if_neg hemp, hy]

/-- C3, witness: `"ShUtDoWn now"` contains the fragment `shutdown`
case-insensitively and is rejected with the fragment in the reason. -/
theorem c3_witness :
    ∃ q ∈ dangerous_patterns, pyContains (pyLower "ShUtDoWn now") q = true ∧
      validate_command_security "ShUtDoWn now"
        = (false, some ("Blocked dangerous command: " ++ q)) :=
  c3_denylist_rejects "ShUtDoWn now" "shutdown" (by decide) (by decide)

/-! ## C5: the Session Context Store history invariant -/

/-- A list of at most `n` elements is its own last-`n` slice. -/
lemma takeLast_of_le (n : Nat) (l : List α) (h : l.length ≤ n) : takeLast n l = l := by
  unfold takeLast
  rw [Nat.sub_eq_zero_of_le h, List.drop_zero]

/-- Length of the last-`n` slice. -/
lemma takeLast_length (n : Nat) (l : List α) :
    (takeLast n l).length = l.length - (l.length - n) := by
  simp [takeLast]

/-- The last-`0` slice is empty. -/
lemma takeLast_zero (l : List α) : takeLast 0 l = [] := by
  unfold takeLast
  rw [Nat.sub_zero]
  exact List.drop_length l

/-- Appending to the last-`n` slice and re-slicing is the same as
appending first: the algebraic heart of oldest-first eviction. -/
lemma takeLast_append_takeLast (n : Nat) (l : List α) (e : α) :
    takeLast n (takeLast n l ++ [e]) = takeLast n (l ++ [e]) := by
  by_cases h : l.length ≤ n
  · rw [takeLast_of_le n l h]
  · push_neg at h
    cases n with
    | zero => rw [takeLast_zero, takeLast_zero]
    | succ m =>
      unfold takeLast
      have hL1 : (l.drop (l.length - (m + 1)) ++ [e]).length - (m + 1) = 1 := by
        rw [List.length_append, List.length_drop]
        simp only [List.length_cons, List.length_nil]
        omega
      rw [hL1]
      have h3 : (1 : Nat) ≤ (l.drop (l.length - (m + 1))).length := by
        rw [List.length_drop]; omega
      rw [List.drop_append_of_le_length h3, List.drop_drop]
      have h4 : (l ++ [e]).length - (m + 1) = (l.length - (m + 1)) + 1 := by
        rw [List.length_append]
        simp only [List.length_cons, List.length_nil]
        omega
      rw [h4]
      have h5 : l.length - (m + 1) + 1 ≤ l.length := by omega
      rw [List.drop_append_of_le_length h5]

/-- The filter of updates that target a given session. -/
def opsFor (sid : String) (ops : List UpdateOp) : List UpdateOp :=
  ops.filter (fun o => o.sid == sid)

/-- The store invariant after a given sequence of updates: an untouched
session is absent, and a touched session holds exactly the last ten
entries (and outputs) of its own updates, with `max_history = 10`. -/
def StoreInv (done : List UpdateOp) (store : Store) : Prop :=
  ∀ sid,
    (store sid = none → opsFor sid done = []) ∧
    (∀ c, store sid = some c →
      c.max_history = 10 ∧
      c.command_history = takeLast 10 ((opsFor sid done).map toEntry) ∧
      c.output_history = takeLast 10 ((opsFor sid done).map UpdateOp.output))

/-- The empty store satisfies the invariant for the empty history. -/
lemma storeInv_empty : StoreInv [] emptyStore := by
  intro sid
  exact ⟨fun _ => rfl, fun c hc => by cases hc⟩

/-- Filtering distributes over appending one update. -/
lemma opsFor_append (sid : String) (done : List UpdateOp) (op : UpdateOp) :
    opsFor sid (done ++ [op]) = opsFor sid done ++ (if op.sid == sid then [op] else []) := by
  unfold opsFor
  rw [List.filter_append]
  congr 1
  cases hop : (op.sid == sid) <;> simp [List.filter_cons, hop]

/-- The slice-step equation shared by both history lists: trimming after
an append equals slicing the full appended list, where the trim decision
is taken on a parallel list of the same length. -/
lemma trimStep (lC : List β) (lO : List γ) (eC : β) (eO : γ)
    (hlen : lO.length = lC.length) :
    (if 10 < (takeLast 10 lC ++ [eC]).length then takeLast 10 (takeLast 10 lO ++ [eO])
     else takeLast 10 lO ++ [eO]) = takeLast 10 (lO ++ [eO]) := by
  by_cases hcond : 10 < (takeLast 10 lC ++ [eC]).length
  · rw [if_pos hcond, takeLast_append_takeLast]
  · rw [if_neg hcond]
    push_neg at hcond
    rw [List.length_append, takeLast_length] at hcond
    simp only [List.length_cons, List.length_nil] at hcond
    have hle : lO.length ≤ 9 := by omega
    rw [takeLast_of_le 10 lO (by omega), takeLast_of_le]
    rw [List.length_append]
    simp only [List.length_cons, List.length_nil]
    omega

/-- The updated store at the updated session id. -/
lemma update_lookup_eq (store : Store) (op : UpdateOp) :
    update_session_context store op op.sid
      = some (updateContextPure (get_session_context store op.sid).1 op) := by
  unfold update_session_context storeSet
  simp

/-- The updated store elsewhere. -/
lemma update_lookup_ne (store : Store) (op : UpdateOp) (sid : String) (h : sid ≠ op.sid) :
    update_session_context store op sid = store sid := by
  unfold update_session_context storeSet
  cases hs : store op.sid <;> simp [get_session_context, hs, storeSet, h]

/-- One update preserves the invariant (the step case). -/
lemma storeInv_step (done : List UpdateOp) (store : Store) (op : UpdateOp)
    (h : StoreInv done store) : StoreInv (done ++ [op]) (update_session_context store op) := by
  intro sid
  by_cases hsid : sid = op.sid
  · rw [hsid, update_lookup_eq]
    have hops : opsFor op.sid (done ++ [op]) = opsFor op.sid done ++ [op] := by
      rw [opsFor_append, if_pos (by simp)]
    constructor
    · intro hnone
      cases hnone
    · intro c hc
      rw [Option.some.injEq] at hc
      subst hc
      have hctx :
          (get_session_context store op.sid).1.max_history = 10 ∧
          (get_session_context store op.sid).1.command_history
            = takeLast 10 ((opsFor op.sid done).map toEntry) ∧
          (get_session_context store op.sid).1.output_history
            = takeLast 10 ((opsFor op.sid done).map UpdateOp.output) := by
        cases hs : store op.sid with
        | none =>
          have hemp : opsFor op.sid done = [] := ((h op.sid).1) hs
          simp [get_session_context, hs, freshSessionContext, hemp, takeLast]
        | some c0 =>
          have := ((h op.sid).2) c0 hs
          simpa [get_session_context, hs] using this
      obtain ⟨hmax, hch, hoh⟩ := hctx
      refine ⟨hmax, ?_, ?_⟩
      · show (if _ < _ then _ else _) = _
        rw [hmax, hch, hops, List.map_append, List.map_cons, List.map_nil]
        exact trimStep ((opsFor op.sid done).map toEntry) ((opsFor op.sid done).map toEntry)
          (toEntry op) (toEntry op) rfl
      · show (if _ < _ then _ else _) = _
        rw [hmax, hch, hoh, hops, List.map_append, List.map_cons, List.map_nil]
        exact trimStep ((opsFor op.sid done).map toEntry)
          ((opsFor op.sid done).map UpdateOp.output) (toEntry op) op.output (by simp)
  · have hops : opsFor sid (done ++ [op]) = opsFor sid done := by
      rw [opsFor_append, if_neg (by simpa using fun he => hsid he.symm)]
      simp
    rw [update_lookup_ne store op sid hsid, hops]
    exact h sid

/-- Folding any sequence of updates preserves the invariant. -/
lemma storeInv_fold (ops : List UpdateOp) :
    ∀ (done : List UpdateOp) (store : Store), StoreInv done store →
      StoreInv (done ++ ops) (applyUpdates store ops) := by
  induction ops with
  | nil =>
    intro done store h
    simpa [applyUpdates] using h
  | cons o os ih =>
    intro done store h
    have h1 := storeInv_step done store o h
    have h2 := ih (done ++ [o]) _ h1
    rw [List.append_assoc] at h2
    simpa [applyUpdates] using h2

/-- C5.  For every session and every sequence of updates applied to the
process-fresh store: the session's stored command history and output
history have equal length, at most the fixed maximum 10, and are exactly
the last ten entries (respectively outputs) of that session's updates in
their original order — the oldest are evicted first. -/
theorem c5_history_invariant (ops : List UpdateOp) (sid : String) (c : SessionContext)
    (h : applyUpdates emptyStore ops sid = some c) :
    c.max_history = 10 ∧
    c.command_history.length = c.output_history.length ∧
    c.command_history.length ≤ 10 ∧
    c.command_history = takeLast 10 ((opsFor sid ops).map toEntry) ∧
    c.output_history = takeLast 10 ((opsFor sid ops).map UpdateOp.output) := by
  have hinv := storeInv_fold ops [] emptyStore storeInv_empty
  rw [List.nil_append] at hinv
  obtain ⟨hmax, hch, hoh⟩ := ((hinv sid).2) c h
  refine ⟨hmax, ?_, ?_, hch, hoh⟩
  · rw [hch, hoh, takeLast_length, takeLast_length]
    simp
  · rw [hch, takeLast_length]
    omega

/-- The `i`-th update of the witness scenario. -/
def mkOp (i : Nat) : UpdateOp :=
  ⟨"s", "cmd" ++ toString i, "t" ++ toString i, "out" ++ toString i, none⟩

/-- Twelve updates for session `s`: two more than the maximum. -/
def ops0 : List UpdateOp := (List.range 12).map mkOp

/-- The context the witness scenario must produce: exactly the ten most
recent of the twelve updates, in order. -/
def c5ctx : SessionContext :=
  ⟨[⟨"cmd2", "t2", none⟩, ⟨"cmd3", "t3", none⟩, ⟨"cmd4", "t4", none⟩,
    ⟨"cmd5", "t5", none⟩, ⟨"cmd6", "t6", none⟩, ⟨"cmd7", "t7", none⟩,
    ⟨"cmd8", "t8", none⟩, ⟨"cmd9", "t9", none⟩, ⟨"cmd10", "t10", none⟩,
    ⟨"cmd11", "t11", none⟩],
   ["out2", "out3", "out4", "out5", "out6", "out7", "out8", "out9", "out10", "out11"],
   [], none, 10⟩

/-- C5, witness: after 12 updates the stored history is the 10 most
recent entries, by direct evaluation plus the invariant theorem. -/
theorem c5_witness :
    applyUpdates emptyStore ops0 "s" = some c5ctx ∧
    (c5ctx.max_history = 10 ∧
     c5ctx.command_history.length = c5ctx.output_history.length ∧
     c5ctx.command_history.length ≤ 10 ∧
     c5ctx.command_history = takeLast 10 ((opsFor "s" ops0).map toEntry) ∧
     c5ctx.output_history = takeLast 10 ((opsFor "s" ops0).map UpdateOp.output)) :=
  ⟨rfl, c5_history_invariant ops0 "s" c5ctx rfl⟩

/-! ## C8: the Intent Matcher is deterministic, first-match, total -/

/-- `find?` returns the first element satisfying the predicate: the
witness index, with everything before it failing. -/
lemma find?_first_index {α : Type} (f : α → Bool) :
    ∀ (l : List α) (x : α), l.find? f = some x →
      ∃ k, ∃ hk : k < l.length, l.get ⟨k, hk⟩ = x ∧ f x = true ∧
        ∀ k2, ∀ hk2 : k2 < l.length, k2 < k → f (l.get ⟨k2, hk2⟩) = false := by
  intro l
  induction l with
  | nil => intro x hx; cases hx
  | cons a as ih =>
    intro x hx
    by_cases ha : f a = true
    · rw [List.find?_cons_of_pos _ ha] at hx
      injection hx with hx
      subst hx
      exact ⟨0, Nat.succ_pos _, rfl, ha, fun k2 hk2 hlt => absurd hlt (Nat.not_lt_zero k2)⟩
    · rw [List.find?_cons_of_neg _ (by simpa using ha)] at hx
      obtain ⟨k, hk, hget, hfx, hbefore⟩ := ih x hx
      refine ⟨k + 1, Nat.succ_lt_succ hk, hget, hfx, ?_⟩
      intro k2 hk2 hlt
      cases k2 with
      | zero => simpa using ha
      | succ k2' =>
        have hk2' : k2' < as.length := Nat.lt_of_succ_lt_succ hk2
        exact hbefore k2' hk2' (Nat.lt_of_succ_lt_succ hlt)

/-- If no pattern of any table entry matches, the matcher loop returns
the sentinel. -/
lemma matchPatternsGo_none (env : PyEnv) (q : String) :
    ∀ (tbl : List (String × CommandInfo)),
      (∀ pr ∈ tbl, ∀ p ∈ pr.2.patterns, env.search p q = false) →
      matchPatternsGo env q tbl = (none, [], none) := by
  intro tbl
  induction tbl with
  | nil => intro _; rfl
  | cons hd rest ih =>
    intro hall
    obtain ⟨ty, info⟩ := hd
    have hnone : info.patterns.find? (fun p => env.search p q) = none := by
      rw [List.find?_eq_none]
      intro p hp
      simp [hall (ty, info) (List.mem_cons_self _ _) p hp]
    simp only [matchPatternsGo, hnone]
    exact ih (fun pr hpr p hp => hall pr (List.mem_cons_of_mem _ hpr) p hp)

/-- A successful matcher loop result is the first table entry (in order)
with a matching pattern, via its first matching pattern, and the
parameters come from that winning pattern. -/
lemma matchPatternsGo_first (env : PyEnv) (q : String) :
    ∀ (tbl : List (String × CommandInfo)) (t : String) (ps : List String) (info : CommandInfo),
      matchPatternsGo env q tbl = (some t, ps, some info) →
      ∃ i, ∃ hi : i < tbl.length,
        tbl.get ⟨i, hi⟩ = (t, info) ∧
        (∀ j, ∀ hj : j < tbl.length, j < i →
          ∀ p ∈ (tbl.get ⟨j, hj⟩).2.patterns, env.search p q = false) ∧
        ∃ k, ∃ hk : k < info.patterns.length,
          env.search (info.patterns.get ⟨k, hk⟩) q = true ∧
          (∀ k2, ∀ hk2 : k2 < info.patterns.length, k2 < k →
            env.search (info.patterns.get ⟨k2, hk2⟩) q = false) ∧
          ps = extract_parameters_from_query env q (info.patterns.get ⟨k, hk⟩) := by
  intro tbl
  induction tbl with
  | nil => intro t ps info hm; cases hm
  | cons hd rest ih =>
    intro t ps info hm
    obtain ⟨ty, ci⟩ := hd
    cases hf : ci.patterns.find? (fun p => env.search p q) with
    | some p =>
      simp only [matchPatternsGo, hf] at hm
      rw [Prod.mk.injEq, Prod.mk.injEq] at hm
      obtain ⟨h1, h2, h3⟩ := hm
      injection h1 with h1
      injection h3 with h3
      subst h1
      subst h3
      obtain ⟨k, hk, hget, hfp, hbefore⟩ :=
        find?_first_index (fun p => env.search p q) ci.patterns p hf
      refine ⟨0, Nat.succ_pos _, rfl, ?_, ?_⟩
      · intro j hj hlt
        exact absurd hlt (Nat.not_lt_zero j)
      · refine ⟨k, hk, ?_, ?_, ?_⟩
        · rw [hget]
          exact hfp
        · intro k2 hk2 hlt
          exact hbefore k2 hk2 hlt
        · rw [hget]
          exact h2.symm
    | none =>
      simp only [matchPatternsGo, hf] at hm
      obtain ⟨i, hi, hget, hbefore, hinner⟩ := ih t ps info hm
      refine ⟨i + 1, Nat.succ_lt_succ hi, hget, ?_, hinner⟩
      intro j hj hlt p hp
      cases j with
      | zero =>
        rw [List.find?_eq_none] at hf
        simpa using hf p hp
      | succ j' =>
        have hj' : j' < rest.length := Nat.lt_of_succ_lt_succ hj
        exact hbefore j' hj' (Nat.lt_of_succ_lt_succ hlt) p hp

/-- C8.  `match_command_pattern` is a pure function of the input string:
(1) it depends only on the lowered-and-stripped text, so matching is
case-insensitive and independent of call order or session state;
(2) an input matching no pattern yields the no-intent sentinel
`(none, [], none)`, not an error; (3) a hit returns the first intent in
table order with a matching pattern, through that intent's first
matching pattern, whose captured groups form the parameters. -/
theorem c8_matcher_first_match_deterministic (env : PyEnv) (q : String) :
    (∀ q2, pyStrip (pyLower q) = pyStrip (pyLower q2) →
      match_command_pattern env q = match_command_pattern env q2) ∧
    ((∀ pr ∈ COMMAND_PATTERNS, ∀ p ∈ pr.2.patterns,
        env.search p (pyStrip (pyLower q)) = false) →
      match_command_pattern env q = (none, [], none)) ∧
    (∀ t ps info, match_command_pattern env q = (some t, ps, some info) →
      ∃ i, ∃ hi : i < COMMAND_PATTERNS.length,
        COMMAND_PATTERNS.get ⟨i, hi⟩ = (t, info) ∧
        (∀ j, ∀ hj : j < COMMAND_PATTERNS.length, j < i →
          ∀ p ∈ (COMMAND_PATTERNS.get ⟨j, hj⟩).2.patterns,
            env.search p (pyStrip (pyLower q)) = false) ∧
        ∃ k, ∃ hk : k < info.patterns.length,
          env.search (info.patterns.get ⟨k, hk⟩) (pyStrip (pyLower q)) = true ∧
          (∀ k2, ∀ hk2 : k2 < info.patterns.length, k2 < k →
            env.search (info.patterns.get ⟨k2, hk2⟩) (pyStrip (pyLower q)) = false) ∧
          ps = extract_parameters_from_query env (pyStrip (pyLower q))
                 (info.patterns.get ⟨k, hk⟩)) := by
  refine ⟨?_, ?_, ?_⟩
  · intro q2 hq
    unfold match_command_pattern
    rw [hq]
  · intro hall
    exact matchPatternsGo_none env (pyStrip (pyLower q)) COMMAND_PATTERNS hall
  · intro t ps info hm
    exact matchPatternsGo_first env (pyStrip (pyLower q)) COMMAND_PATTERNS t ps info hm

/-- C8, witness: under an engine where no pattern matches, the theorem's
no-match part yields the sentinel for a concrete query. -/
theorem c8_witness :
    match_command_pattern E6 "hello world" = (none, [], none) :=
  (c8_matcher_first_match_deterministic E6 "hello world").2.1 (by decide)

/-! ## C4 (amended): pattern hits bypass the oracle — when AI is enabled -/

/-- C4, amended.  When the oracle is configured (`AI_ENABLED`) and a
session id is supplied, an input matched to a non-builtin intent yields
the pattern-built command with the smart-match feedback, without
consulting the oracle: the result is identical under any two oracles.
(The counterexample shows this fails when the oracle is not configured:
the AI-disabled guard rejects the input before pattern matching.) -/
theorem c4_pattern_hit_oracle_independent (env : PyEnv) (o1 o2 : Oracle) (store : Store)
    (q sid : String) (t : String) (ps : List String) (info : CommandInfo) (sc : String)
    (he : env.aiEnabled = true) (hs : sid ≠ "")
    (hm : match_command_pattern env q = (some t, ps, some info))
    (hb : info.builtin_override = false)
    (hc : build_smart_command env.isWindows t ps info = some sc) (hne : sc ≠ "") :
    get_ai_command env o1 store q (some sid)
      = ((some sc, "🎯 Smart match: " ++ info.description),
         (get_session_context store sid).2, []) ∧
    get_ai_command env o1 store q (some sid) = get_ai_command env o2 store q (some sid) := by
  have htr : truthyOpt (some sid) = true := by
    simp [truthyOpt, hs]
  have hphase : aiPatternPhase env store q (some sid)
      = ((get_session_context store sid).2,
         some (some sc, "🎯 Smart match: " ++ info.description)) := by
    unfold aiPatternPhase
    rw [htr, if_pos rfl, hm]
    simp only [Option.getD_some, hb, Bool.false_eq_true, if_neg, hc]
    rw [if_pos hne]
    simp
  constructor
  · unfold get_ai_command
    rw [he, if_neg (by simp), hphase]
  · unfold get_ai_command
    rw [he, if_neg (by simp), hphase]
    rfl

/-- The `count_files` table entry (for the C4 witness). -/
def countFilesInfo : CommandInfo :=
  ⟨["(?:count|how many)\\s+files?", "number\\s+of\\s+files?", "file\\s+count"],
   some "dir /b | find /c /v \"\"", some "ls -1 | wc -l", "Count files in directory", false⟩

/-- An oracle that would answer with a command (never reached on a
pattern hit). -/
def oracleLs : Oracle := fun _ => Except.ok "ls -la"

/-- C4, witness: on `"count files"` with AI enabled the smart command is
produced, identically under two different oracles. -/
theorem c4_witness :
    get_ai_command E0 oracle0 emptyStore "count files" (some "s")
      = ((some "ls -1 | wc -l", "🎯 Smart match: " ++ countFilesInfo.description),
         (get_session_context emptyStore "s").2, []) ∧
    get_ai_command E0 oracle0 emptyStore "count files" (some "s")
      = get_ai_command E0 oracleLs emptyStore "count files" (some "s") :=
  c4_pattern_hit_oracle_independent E0 oracle0 oracleLs emptyStore "count files" "s"
    "count_files" [] countFilesInfo "ls -1 | wc -l" rfl (by decide) rfl rfl rfl (by decide)

/-! ## C6 (amended): the Executor's outcome-to-string mapping -/

/-- C6, amended.  Whenever the child process actually runs (the Windows
shell path, or the Unix path with a resolvable executable), the Executor
returns — always as a value, never as an exception, the embedding being
total — the whitespace-trimmed captured stdout on exit 0 (or the literal
success marker if stdout is empty), the trimmed captured stderr on a
non-zero exit (or the literal failure marker naming the exit status if
stderr is empty), and the literal timeout marker on timeout. -/
theorem c6_outcome_mapping (env : PyEnv) (cmd path : String) :
    (∀ rc out err, env.isWindows = true →
      env.runShell cmd path = RunOutcome.completed rc out err →
      execute_system_command env cmd path
        = if rc = 0 then pyStrip (if out ≠ "" then out else "✅ Command executed successfully")
          else pyStrip (if err ≠ "" then err
                        else "❌ Command failed (exit code: " ++ toString rc ++ ")")) ∧
    (env.isWindows = true → env.runShell cmd path = RunOutcome.timedOut →
      execute_system_command env cmd path = "⏱️ Command timed out after 30 seconds") ∧
    (∀ b rest rc out err, env.isWindows = false → env.tokenize cmd = Except.ok (b :: rest) →
      env.whichFound b = true →
      env.runArgv (b :: rest) path = RunOutcome.completed rc out err →
      execute_system_command env cmd path
        = if rc = 0 then pyStrip (if out ≠ "" then out else "✅ Command executed successfully")
          else pyStrip (if err ≠ "" then err
                        else "❌ Command failed (exit code: " ++ toString rc ++ ")")) ∧
    (∀ b rest, env.isWindows = false → env.tokenize cmd = Except.ok (b :: rest) →
      env.whichFound b = true → env.runArgv (b :: rest) path = RunOutcome.timedOut →
      execute_system_command env cmd path = "⏱️ Command timed out after 30 seconds") := by
  refine ⟨?_, ?_, ?_, ?_⟩
  · intro rc out err hw hrun
    unfold execute_system_command
    rw [hw, if_pos rfl, hrun]
    rfl
  · intro hw hrun
    unfold execute_system_command
    rw [hw, if_pos rfl, hrun]
    rfl
  · intro b rest rc out err hw htok hwhich hrun
    unfold execute_system_command
    rw [hw, if_neg (by simp), htok]
    simp only [hwhich, if_true, hrun]
    rfl
  · intro b rest hw htok hwhich hrun
    unfold execute_system_command
    rw [hw, if_neg (by simp), htok]
    simp only [hwhich, if_true, hrun]
    rfl

/-- C6, witness: the amended theorem applied to the concrete environment
of the counterexample. -/
theorem c6_witness :
    execute_system_command E6 "echo hi" "/"
      = if (0 : Int) = 0
        then pyStrip (if ("hello\n" : String) ≠ "" then "hello\n"
                      else "✅ Command executed successfully")
        else pyStrip (if ("" : String) ≠ "" then ""
                      else "❌ Command failed (exit code: " ++ toString (0 : Int) ++ ")") :=
  (c6_outcome_mapping E6 "echo hi" "/").2.2.1 "echo" ["hi"] 0 "hello\n" "" rfl rfl rfl rfl

/-! ## C9: working-directory fallback to the home directory -/

/-- C9.  For any `/command` request whose path is the literal `~` or not
an existing directory, the handler silently substitutes the home
directory before any dispatch: the whole processing equals the core
dispatch run with the home directory. -/
theorem c9_path_fallback (env : PyEnv) (oracle : Oracle) (req : Request) (store : Store)
    (hpath : req.path = "~" ∨ env.isdir req.path = false)
    (hlen : pyLen (pyStrip req.command) ≤ 1000) :
    handle_command env oracle req store
      = handleCore env oracle (pyStrip req.command) req.sessionId env.home store := by
  unfold handle_command
  rw [if_neg (by omega), if_pos hpath]

/-- C9, witness: a request with path `~` is processed in `/root`, the
home directory of `E0`. -/
theorem c9_witness :
    handle_command E0 oracle0 ⟨"pwd", "s", "~"⟩ emptyStore
      = handleCore E0 oracle0 (pyStrip "pwd") "s" "/root" emptyStore :=
  c9_path_fallback E0 oracle0 ⟨"pwd", "s", "~"⟩ emptyStore (Or.inl rfl) (by decide)

/-! ## C10: the builtin cd and clear handlers leave the session store alone -/

/-- The `cd` branch returns the store untouched, in all three arms. -/
lemma cdBranch_store (env : PyEnv) (store : Store) (parts : List String)
    (cp np : String) : (cdBranch env store parts cp np).2.1 = store := by
  simp only [cdBranch]
  split
  · rfl
  · split <;> rfl

/-- The dispatch core leaves the store alone on `cd` and `clear`. -/
lemma handleCore_cd_clear_store (env : PyEnv) (oracle : Oracle)
    (cf sid cp : String) (store : Store)
    (h : (pySplit cf).headD "" = "cd" ∨ (pySplit cf).headD "" = "clear") :
    (handleCore env oracle cf sid cp store).2.1 = store := by
  simp only [handleCore]
  rcases h with h | h
  · have h1 : ¬(("cd" : String) = "ls") := by decide
    have h2 : ¬(("cd" : String) = "dir" ∧ env.isWindows = true) :=
      fun hc => absurd hc.1 (by decide)
    rw [h, if_neg h1, if_neg h2, if_pos rfl]
    exact cdBranch_store env store _ _ _
  · have h1 : ¬(("clear" : String) = "ls") := by decide
    have h2 : ¬(("clear" : String) = "dir" ∧ env.isWindows = true) :=
      fun hc => absurd hc.1 (by decide)
    have h3 : ¬(("clear" : String) = "cd") := by decide
    have h4 : ¬(("clear" : String) = "pwd") := by decide
    have h5 : ¬(("clear" : String) = "help") := by decide
    rw [h, if_neg h1, if_neg h2, if_neg h3, if_neg h4, if_neg h5, if_pos rfl]

/-- C10.  A request whose first token is `cd` or `clear` never modifies
the session context store: command history, output history, current
files and last operation of every session are exactly as before. -/
theorem c10_cd_clear_preserve_store (env : PyEnv) (oracle : Oracle) (req : Request)
    (store : Store)
    (h : (pySplit (pyStrip req.command)).headD "" = "cd"
       ∨ (pySplit (pyStrip req.command)).headD "" = "clear") :
    (handle_command env oracle req store).2.1 = store := by
  simp only [handle_command]
  by_cases hlen : 1000 < pyLen (pyStrip req.command)
  · rw [if_pos hlen]
  · rw [if_neg hlen]
    exact handleCore_cd_clear_store env oracle (pyStrip req.command) req.sessionId _ store h

/-- C10, witness: a concrete `cd /tmp` request leaves the store intact. -/
theorem c10_witness :
    (handle_command E0 oracle0 ⟨"cd /tmp", "s", "/root"⟩ emptyStore).2.1 = emptyStore :=
  c10_cd_clear_preserve_store E0 oracle0 ⟨"cd /tmp", "s", "/root"⟩ emptyStore
    (Or.inl (by decide))

/-! ## C7 (amended): response cleanup and the refusal sentinel -/

/-- The validator result is either exactly `(true, none)` or unsafe. -/
lemma validate_cases (c : String) :
    validate_command_security c = (true, none) ∨ (validate_command_security c).1 = false := by
  simp only [validate_command_security]
  split
  · right; rfl
  · split
    · right; rfl
    · split
      · right; rfl
      · left; rfl

/-- A safe validation is exactly `(true, none)`. -/
lemma validate_safe_shape (c : String) (h : (validate_command_security c).1 = true) :
    validate_command_security c = (true, none) := by
  rcases validate_cases c with hv | hv
  · exact hv
  · rw [hv] at h
    cases h

/-- Stripping never introduces characters. -/
lemma mem_pyStripList (c : Char) (l : List Char) (h : c ∈ pyStripList l) : c ∈ l := by
  unfold pyStripList at h
  have h1 := List.mem_reverse.mp h
  have h2 := (List.dropWhile_sublist _).subset h1
  have h3 := List.mem_reverse.mp h2
  exact (List.dropWhile_sublist _).subset h3

/-- C7, amended.  The oracle-response post-processing strips fence
markers and all backticks and trims whitespace — the cleaned text never
contains a backtick — but it does not extract a single line (see the
counterexample).  When the cleaned text begins with the refusal sentinel
`Error:`, the pipeline surfaces it as an error instead of a command;
otherwise a safe cleaned text is returned as the command. -/
theorem c7_cleanup_properties (env : PyEnv) (oracle : Oracle) (store : Store) (q r : String) :
    (∀ s : String, btick ∉ (cleanupResponse s).data) ∧
    (env.aiEnabled = true → oracle (some (simplePrompt env q)) = Except.ok r →
      (pyStartsWith (cleanupResponse r) "Error:" = true →
        (get_ai_command env oracle store q none).1 = (none, cleanupResponse r)) ∧
      (pyStartsWith (cleanupResponse r) "Error:" = false →
        (validate_command_security (cleanupResponse r)).1 = true →
        (get_ai_command env oracle store q none).1
          = (some (cleanupResponse r), "🤖 AI processing"))) := by
  constructor
  · intro s hmem
    have h1 := mem_pyStripList btick _ hmem
    rw [List.mem_filter] at h1
    simp at h1
  · intro he hok
    have hph : aiPatternPhase env store q none = (store, none) := rfl
    have hred : get_ai_command env oracle store q none
        = ((oracleCleanupStep oracle (some (simplePrompt env q)) "🤖 AI processing").1,
           store,
           (oracleCleanupStep oracle (some (simplePrompt env q)) "🤖 AI processing").2) := by
      unfold get_ai_command
      rw [he, if_neg (by simp), hph]
      rfl
    constructor
    · intro herr
      rw [hred]
      unfold oracleCleanupStep
      rw [hok]
      dsimp only
      rw [if_pos herr]
    · intro herr hsafe
      rw [hred]
      unfold oracleCleanupStep
      rw [hok]
      dsimp only
      rw [if_neg (by rw [herr]; exact fun hc => by cases hc)]
      rw [validate_safe_shape _ hsafe]
      dsimp only
      rw [if_pos rfl]

/-- An oracle answering with the refusal sentinel. -/
def oracleRefusal : Oracle := fun _ => Except.ok "Error: cannot comply"

/-- C7, witness: a refusal-sentinel response is surfaced as an error by
the pipeline. -/
theorem c7_witness :
    (get_ai_command E0 oracleRefusal emptyStore "zap" none).1
      = (none, cleanupResponse "Error: cannot comply") :=
  ((c7_cleanup_properties E0 oracleRefusal emptyStore "zap" "Error: cannot comply").2
    rfl rfl).1 (by decide)

/-! ## C1 (amended): what reaches the Executor -/

/-- A successful pattern phase returned either the built-in override
marker or a pattern-built command. -/
lemma aiPatternPhase_some_cases (env : PyEnv) (store : Store) (q : String)
    (sid : Option String) (st : Store) (res : Option String × String)
    (h : aiPatternPhase env store q sid = (st, some res)) :
    res.1 = some "BUILTIN_OVERRIDE" ∨
      ∃ t ps info, match_command_pattern env q = (some t, ps, some info) ∧
        ∃ sc, build_smart_command env.isWindows t ps info = some sc ∧ res.1 = some sc := by
  unfold aiPatternPhase at h
  by_cases htr : truthyOpt sid = true
  · rw [if_pos htr] at h
    dsimp only at h
    split at h
    · rename_i cmd_type params cmd_info heq
      by_cases hb : cmd_info.builtin_override = true
      · rw [if_pos hb] at h
        have h2 := congrArg (fun x => x.2) h
        simp only [Option.some.injEq] at h2
        left
        rw [← h2]
      · rw [if_neg hb] at h
        cases hbuild : build_smart_command env.isWindows cmd_type params cmd_info with
        | none =>
          rw [hbuild] at h
          have := congrArg (fun x => x.2) h
          simp at this
        | some sc =>
          rw [hbuild] at h
          dsimp only at h
          by_cases hne : sc ≠ ""
          · rw [if_pos hne] at h
            have h2 := congrArg (fun x => x.2) h
            simp only [Option.some.injEq] at h2
            right
            exact ⟨cmd_type, params, cmd_info, heq, sc, hbuild, by rw [← h2]⟩
          · rw [if_neg hne] at h
            have := congrArg (fun x => x.2) h
            simp at this
    · have := congrArg (fun x => x.2) h
      simp at this
  · rw [if_neg htr] at h
    have := congrArg (fun x => x.2) h
    simp at this

/-- The oracle step either produces no command (empty trace, except for
a failed validation) or a validated-safe command whose validation event
is in the trace. -/
lemma oracleCleanupStep_spec (oracle : Oracle) (prompt : Option String) (feedback : String) :
    ((oracleCleanupStep oracle prompt feedback).2 = [] ∧
      ∀ c fb, (oracleCleanupStep oracle prompt feedback).1 = (some c, fb) → False) ∨
    (∃ cmd v, (oracleCleanupStep oracle prompt feedback).2 = [Event.validated cmd v] ∧
      ∀ c fb, (oracleCleanupStep oracle prompt feedback).1 = (some c, fb) →
        c = cmd ∧ v = (true, none)) := by
  unfold oracleCleanupStep
  cases hO : oracle prompt with
  | error e =>
    left
    refine ⟨rfl, fun c fb hc => ?_⟩
    have := congrArg (fun x => x.1) hc
    simp at this
  | ok text =>
    dsimp only
    by_cases hs : pyStartsWith (cleanupResponse text) "Error:" = true
    · rw [if_pos hs]
      left
      refine ⟨rfl, fun c fb hc => ?_⟩
      have := congrArg (fun x => x.1) hc
      simp at this
    · rw [if_neg hs]
      rcases validate_cases (cleanupResponse text) with hv | hv
      · rw [hv]
        dsimp only
        rw [if_pos rfl]
        right
        refine ⟨cleanupResponse text, (true, none), rfl, fun c fb hc => ?_⟩
        have h1 := congrArg (fun x => x.1) hc
        simp only [Option.some.injEq] at h1
        exact ⟨h1.symm, rfl⟩
      · rw [if_neg (by rw [hv]; exact fun hc => by cases hc)]
        right
        refine ⟨cleanupResponse text, validate_command_security (cleanupResponse text),
          rfl, fun c fb hc => ?_⟩
        have := congrArg (fun x => x.1) hc
        simp at this

/-- Case analysis of `get_ai_command`: either the trace is empty and any
returned command is the override marker or pattern-built, or the trace
is exactly one successful validation of the returned command. -/
lemma gac_spec (env : PyEnv) (oracle : Oracle) (store : Store) (q : String)
    (sid : Option String) :
    ((get_ai_command env oracle store q sid).2.2 = [] ∧
      ∀ c fb, (get_ai_command env oracle store q sid).1 = (some c, fb) →
        c = "BUILTIN_OVERRIDE" ∨
          ∃ t ps info, match_command_pattern env q = (some t, ps, some info) ∧
            build_smart_command env.isWindows t ps info = some c) ∨
    (∃ cmd v, (get_ai_command env oracle store q sid).2.2 = [Event.validated cmd v] ∧
      ∀ c fb, (get_ai_command env oracle store q sid).1 = (some c, fb) →
        c = cmd ∧ v = (true, none)) := by
  unfold get_ai_command
  by_cases he : env.aiEnabled = false
  · rw [if_pos he]
    left
    refine ⟨rfl, fun c fb hc => ?_⟩
    have := congrArg (fun x => x.1) hc
    simp at this
  · rw [if_neg he]
    rcases hph : aiPatternPhase env store q sid with ⟨store1, ores⟩
    cases ores with
    | some res =>
      left
      refine ⟨rfl, fun c fb hc => ?_⟩
      dsimp only at hc
      rcases aiPatternPhase_some_cases env store q sid store1 res hph with h1 | h1
      · left
        rw [hc] at h1
        dsimp only at h1
        injection h1
      · obtain ⟨t, ps, info, hm, sc, hbuild, hsc⟩ := h1
        right
        rw [hc] at hsc
        dsimp only at hsc
        injection hsc with hsc
        exact ⟨t, ps, info, hm, by rw [hsc]; exact hbuild⟩
    | none =>
      dsimp only
      rcases oracleCleanupStep_spec oracle
          (if truthyOpt sid = true then
            ((build_enhanced_prompt env store1 q (sid.getD "")).1.1,
             (build_enhanced_prompt env store1 q (sid.getD "")).1.2,
             (build_enhanced_prompt env store1 q (sid.getD "")).2)
          else (some (simplePrompt env q), "🤖 AI processing", store1)).1
          (if truthyOpt sid = true then
            ((build_enhanced_prompt env store1 q (sid.getD "")).1.1,
             (build_enhanced_prompt env store1 q (sid.getD "")).1.2,
             (build_enhanced_prompt env store1 q (sid.getD "")).2)
          else (some (simplePrompt env q), "🤖 AI processing", store1)).2.1
        with ⟨h1, h2⟩ | ⟨cmd, v, h1, h2⟩
      · left
        exact ⟨h1, fun c fb hc => absurd hc (fun hcc => h2 c fb hcc)⟩
      · right
        exact ⟨cmd, v, h1, h2⟩

/-- The builtin `ls` branch performs no validation or execution. -/
lemma lsBranch_trace (env : PyEnv) (store : Store) (sid cf : String)
    (parts : List String) (cp np : String) :
    (lsBranch env store sid cf parts cp np).2.2 = [] := by
  simp only [lsBranch]
  split <;> rfl

/-- The builtin `dir` branch performs no validation or execution. -/
lemma dirBranch_trace (env : PyEnv) (store : Store) (sid cf : String)
    (parts : List String) (cp np : String) :
    (dirBranch env store sid cf parts cp np).2.2 = [] := by
  simp only [dirBranch]
  split <;> rfl

/-- The builtin `cd` branch performs no validation or execution. -/
lemma cdBranch_trace (env : PyEnv) (store : Store) (parts : List String)
    (cp np : String) : (cdBranch env store parts cp np).2.2 = [] := by
  simp only [cdBranch]
  split
  · rfl
  · split <;> rfl

/-- The override branch hands back the pattern-phase trace unchanged. -/
lemma builtinOverrideBranch_trace (env : PyEnv) (store1 : Store)
    (sid feedback cf cp np : String) (evs : List Event) :
    (builtinOverrideBranch env store1 sid feedback cf cp np evs).2.2 = evs := by
  simp only [builtinOverrideBranch]
  split
  · split
    · split <;> rfl
    · rfl
  · rfl

/-- The dispatch core either produces an empty trace (all builtin
branches) or behaves as the natural-language branch. -/
lemma handleCore_trace_cases (env : PyEnv) (oracle : Oracle)
    (cf sid cp : String) (store : Store) :
    (handleCore env oracle cf sid cp store).2.2 = [] ∨
    handleCore env oracle cf sid cp store = nlpBranch env oracle store sid cf cp cp := by
  simp only [handleCore]
  split
  · left; exact lsBranch_trace env store sid cf _ cp cp
  · split
    · left; exact dirBranch_trace env store sid cf _ cp cp
    · split
      · left; exact cdBranch_trace env store _ cp cp
      · split
        · left; rfl
        · split
          · left; rfl
          · split
            · left; rfl
            · right; rfl

/-- Trace analysis of the natural-language branch: any executed command
is last in the trace, and was either validated safe earlier in the
trace or pattern-built. -/
lemma nlpBranch_trace_spec (env : PyEnv) (oracle : Oracle) (store : Store)
    (sid cf cp np c : String)
    (h : Event.executed c ∈ (nlpBranch env oracle store sid cf cp np).2.2) :
    ∃ pre, (nlpBranch env oracle store sid cf cp np).2.2 = pre ++ [Event.executed c] ∧
      (Event.validated c (true, none) ∈ pre ∨
        ∃ t ps info, match_command_pattern env cf = (some t, ps, some info) ∧
          build_smart_command env.isWindows t ps info = some c) := by
  have hspec := gac_spec env oracle store cf (some sid)
  rcases hR : get_ai_command env oracle store cf (some sid) with ⟨⟨aic, fb⟩, st1, evs⟩
  rw [hR] at hspec
  simp only at hspec
  simp only [nlpBranch, hR] at h ⊢
  cases aic with
  | none =>
    exfalso
    dsimp only at h
    rcases hspec with ⟨h1, -⟩ | ⟨cmd, v, h1, -⟩ <;> rw [h1] at h <;> simp at h
  | some ac =>
    dsimp only at h ⊢
    by_cases hempty : ac = ""
    · rw [if_pos hempty] at h ⊢
      exfalso
      rcases hspec with ⟨h1, -⟩ | ⟨cmd, v, h1, -⟩ <;> rw [h1] at h <;> simp at h
    · rw [if_neg hempty] at h ⊢
      by_cases hbo : ac = "BUILTIN_OVERRIDE"
      · rw [if_pos hbo] at h ⊢
        exfalso
        rw [builtinOverrideBranch_trace] at h
        rcases hspec with ⟨h1, -⟩ | ⟨cmd, v, h1, -⟩ <;> rw [h1] at h <;> simp at h
      · rw [if_neg hbo] at h ⊢
        dsimp only at h ⊢
        rcases List.mem_append.mp h with hin | hin
        · exfalso
          rcases hspec with ⟨h1, -⟩ | ⟨cmd, v, h1, -⟩ <;> rw [h1] at hin <;> simp at hin
        · have hcac : c = ac := by
            have := List.mem_singleton.mp hin
            injection this
          subst hcac
          refine ⟨evs, rfl, ?_⟩
          rcases hspec with ⟨-, h2⟩ | ⟨cmd, v, h1, h2⟩
          · rcases h2 c fb rfl with hb | hp
            · exact absurd hb hbo
            · right; exact hp
          · obtain ⟨hc1, hv⟩ := h2 c fb rfl
            left
            rw [h1, hc1, hv]
            exact List.mem_singleton.mpr rfl

/-- C1, amended.  Every command handed to the Executor by the `/command`
pipeline comes last in its request's event trace and either (a) was
previously returned safe by `validate_command_security` — the
oracle-generated path — or (b) is the pattern-built command of the
matched intent, which is executed without any validator call. -/
theorem c1_executed_commands_validated_or_pattern_built (env : PyEnv) (oracle : Oracle)
    (req : Request) (store : Store) (c : String)
    (h : Event.executed c ∈ (handle_command env oracle req store).2.2) :
    ∃ pre, (handle_command env oracle req store).2.2 = pre ++ [Event.executed c] ∧
      (Event.validated c (true, none) ∈ pre ∨
        ∃ t ps info,
          match_command_pattern env (pyStrip req.command) = (some t, ps, some info) ∧
          build_smart_command env.isWindows t ps info = some c) := by
  simp only [handle_command] at h ⊢
  by_cases hlen : 1000 < pyLen (pyStrip req.command)
  · rw [if_pos hlen] at h
    simp at h
  · rw [if_neg hlen] at h ⊢
    rcases handleCore_trace_cases env oracle (pyStrip req.command) req.sessionId
        (if req.path = "~" ∨ env.isdir req.path = false then env.home else req.path)
        store with hc | hc
    · rw [hc] at h
      simp at h
    · rw [hc] at h ⊢
      exact nlpBranch_trace_spec env oracle store req.sessionId (pyStrip req.command) _ _ c h

/-- A Unix environment with AI enabled whose regex engine matches
nothing, forcing the oracle path. -/
def E1 : PyEnv :=
  ⟨false, true, fun _ _ => false, fun _ _ => [], "/", fun _ => true,
   fun p => p, fun _ => Except.error "no such directory", fun _ => none,
   fun s => Except.ok (pySplit s), fun _ => true, fun _ => false,
   fun _ _ => RunOutcome.completed 0 "" "",
   fun _ _ => RunOutcome.completed 0 "a.txt\n" "", "2024-01-01T00:00:00"⟩

/-- A pattern-free request, resolved through the oracle. -/
def req1 : Request := ⟨"zzz", "s", "/"⟩

/-- C1, witness: on the oracle path the executed command `ls -la` is
preceded in the trace by its successful validation. -/
theorem c1_witness :
    ∃ pre, (handle_command E1 oracleLs req1 emptyStore).2.2
        = pre ++ [Event.executed "ls -la"] ∧
      (Event.validated "ls -la" (true, none) ∈ pre ∨
        ∃ t ps info,
          match_command_pattern E1 (pyStrip req1.command) = (some t, ps, some info) ∧
          build_smart_command E1.isWindows t ps info = some "ls -la") :=
  c1_executed_commands_validated_or_pattern_built E1 oracleLs req1 emptyStore "ls -la"
    (by decide)
